import Mathlib

/-!
Verification of the `thread-id` crate (skyline-rs fork, `src/lib.rs`).

The crate exposes one public function, `pub fn get() -> usize`, which
forwards to a cfg-gated `get_internal`.  Four `get_internal` definitions
exist in the source, each behind its own attribute:

* line 50: `#[cfg(target_os = "switch")]`  — `std::thread::current().id().as_u64().get() as usize`
* line 55: `#[cfg(unix)]`                  — `libc::pthread_self() as usize`
* line 61: `#[cfg(windows)]`               — `GetCurrentThreadId() as usize`
* line 67: `#[cfg(target_os = "redox")]`   — `syscall::getpid().unwrap()`

We embed the build-time configuration logic (which of the four
definitions compile for a given target, and whether the crate builds)
and the runtime behaviour of each backend over an abstract model of the
operating-system primitives.
-/

namespace ThreadId

/-- A compilation target, as seen by Rust `cfg` attributes: its
`target_os` tag, whether it belongs to the `unix` and `windows` target
families, and its pointer width in bits (the width of `usize`). -/
structure Target where
  os : String
  unixFamily : Bool
  windowsFamily : Bool
  ptrWidth : Nat
deriving DecidableEq, Repr

/-- The four platform backends of `get_internal` in `src/lib.rs`. -/
inductive Backend where
  | switch
  | unix
  | windows
  | redox
deriving DecidableEq, Repr

/-- `#[cfg(target_os = "switch")]` (line 50). -/
def cfgSwitch (t : Target) : Bool := t.os == "switch"

/-- `#[cfg(unix)]` (line 55): the target is in the unix family. -/
def cfgUnix (t : Target) : Bool := t.unixFamily

/-- `#[cfg(windows)]` (line 61): the target is in the windows family. -/
def cfgWindows (t : Target) : Bool := t.windowsFamily

/-- `#[cfg(target_os = "redox")]` (line 67). -/
def cfgRedox (t : Target) : Bool := t.os == "redox"

/-- The list of `get_internal` definitions that are compiled for target
`t`, in source order (lines 50, 55, 61, 67).  The four `cfg` attributes
are evaluated independently: the source has no `not(...)` clauses and no
precedence between the branches. -/
def compiledBackends (t : Target) : List Backend :=
  (if cfgSwitch t then [Backend.switch] else []) ++
  (if cfgUnix t then [Backend.unix] else []) ++
  (if cfgWindows t then [Backend.windows] else []) ++
  (if cfgRedox t then [Backend.redox] else [])

/-- Outcome of compiling the crate for a target. -/
inductive BuildResult where
  /-- Exactly one `get_internal` is compiled; the crate builds with it. -/
  | ok (b : Backend)
  /-- Two or more `get_internal` definitions are compiled: rustc rejects
  the crate with a duplicate-definition error. -/
  | duplicateDefinition
  /-- No `get_internal` is compiled: the body of `get` refers to an
  undefined name and rustc rejects the crate with an unresolved-name
  error. -/
  | missingGetInternal
deriving DecidableEq, Repr

/-- Compiling the crate for target `t`: the build succeeds precisely
when exactly one of the four `cfg` conditions holds. -/
def build (t : Target) : BuildResult :=
  match compiledBackends t with
  | [] => BuildResult.missingGetInternal
  | [b] => BuildResult.ok b
  | _ :: _ :: _ => BuildResult.duplicateDefinition

/-- A target matching none of the four `cfg` conditions. -/
def unsupported (t : Target) : Prop :=
  cfgSwitch t = false ∧ cfgUnix t = false ∧
  cfgWindows t = false ∧ cfgRedox t = false

instance (t : Target) : Decidable (unsupported t) := by
  unfold unsupported; infer_instance

/-- The diagnostic rustc emits when no `get_internal` is compiled: the
crate contains no `compile_error!` invocation, so the only message is
the compiler's own unresolved-name error for the call in `get`
(line 47).  Its text is a fixed string, independent of the target. -/
def missingGetInternalMsg : String :=
  "cannot find function get_internal in this scope"

/-- The diagnostic produced by building for target `t` (`none` when the
build succeeds).  The crate itself emits no diagnostic; both failure
messages are rustc's own and name only the symbol `get_internal`. -/
def buildDiagnostic (t : Target) : Option String :=
  match build t with
  | BuildResult.ok _ => none
  | BuildResult.duplicateDefinition =>
      some "the name get_internal is defined multiple times"
  | BuildResult.missingGetInternal => some missingGetInternalMsg

/-- `true` when the character list `needle` occurs contiguously inside
`hay` (used to ask whether a diagnostic mentions a target's name). -/
def containsSub (needle : List Char) : List Char → Bool
  | [] => needle == []
  | c :: rest => needle.isPrefixOf (c :: rest) || containsSub needle rest

/-- The OS / runtime primitives the four backends call, as pure
functions of an abstract thread (threads are named by naturals).  The
functions are per-thread constants because every primitive queries
per-thread state whose value is stable for the life of the thread.
`w` is the pointer width of the target, in bits. -/
structure OsEnv (w : Nat) where
  /-- `libc::pthread_self()`: the bit pattern of the calling thread's
  opaque `pthread_t` handle. -/
  pthread_self : Nat → Nat
  /-- `GetCurrentThreadId()`: the Win32 kernel thread id, a `DWORD`
  (`u32`), hence below `2 ^ 32` by type. -/
  getCurrentThreadId : Nat → Nat
  getCurrentThreadId_lt : ∀ th, getCurrentThreadId th < 2 ^ 32
  /-- `syscall::getpid()`: the Redox process id of the calling thread,
  a fallible syscall returning `Result<usize, Error>`; `none` models
  `Err`.  A returned pid is a `usize`, hence below `2 ^ w` by type. -/
  getpid : Nat → Option Nat
  getpid_lt : ∀ th v, getpid th = some v → v < 2 ^ w
  /-- `std::thread::current().id().as_u64()`: the Rust runtime's
  thread id, a `NonZeroU64`, hence nonzero and below `2 ^ 64` by type. -/
  threadIdAsU64 : Nat → Nat
  threadIdAsU64_pos : ∀ th, 0 < threadIdAsU64 th
  threadIdAsU64_lt : ∀ th, threadIdAsU64 th < 2 ^ 64

/-- Rust's `as usize` cast on an unsigned integer: truncation to the
machine word, i.e. reduction modulo `2 ^ w`. -/
def asUsize (w : Nat) (v : Nat) : Nat := v % 2 ^ w

/-- `fn get_internal() -> usize`, per backend.  `none` models a panic:
only the Redox backend can panic, via `.unwrap()` on a failed
`getpid`.  The other three bodies are a primitive call followed by an
`as usize` cast (the Redox value is already a `usize`; no cast). -/
def get_internal (w : Nat) (env : OsEnv w) (b : Backend) (th : Nat) :
    Option Nat :=
  match b with
  | Backend.switch => some (asUsize w (env.threadIdAsU64 th))
  | Backend.unix => some (asUsize w (env.pthread_self th))
  | Backend.windows => some (asUsize w (env.getCurrentThreadId th))
  | Backend.redox => env.getpid th

/-- `pub fn get() -> usize` (line 45): forwards to `get_internal`.
`b` is the backend the build selected for the target. -/
def get (w : Nat) (env : OsEnv w) (b : Backend) (th : Nat) : Option Nat :=
  get_internal w env b th

/-- The raw value produced by backend `b`'s primitive for thread `th`,
before the `as usize` cast in `get_internal`. -/
def rawValue (w : Nat) (env : OsEnv w) (b : Backend) (th : Nat) :
    Option Nat :=
  match b with
  | Backend.switch => some (env.threadIdAsU64 th)
  | Backend.unix => some (env.pthread_self th)
  | Backend.windows => some (env.getCurrentThreadId th)
  | Backend.redox => env.getpid th

/-- A possibly-absent primitive value fits in a `w`-bit machine word. -/
def valueFits (w : Nat) : Option Nat → Prop
  | none => True
  | some v => v < 2 ^ w

/-- The operating system's uniqueness guarantee, instantiated at two
threads: while `th1` and `th2` are both live, backend `b`'s primitive
distinguishes them and its values fit in the machine word (on every
supported platform the primitive's value is word-sized or narrower). -/
def osDistinguishes (w : Nat) (env : OsEnv w) (b : Backend)
    (th1 th2 : Nat) : Prop :=
  rawValue w env b th1 ≠ rawValue w env b th2 ∧
  valueFits w (rawValue w env b th1) ∧
  valueFits w (rawValue w env b th2)

instance (w : Nat) (o : Option Nat) : Decidable (valueFits w o) :=
  match o with
  | none => isTrue trivial
  | some v => inferInstanceAs (Decidable (v < 2 ^ w))

instance (w : Nat) (env : OsEnv w) (b : Backend) (th1 th2 : Nat) :
    Decidable (osDistinguishes w env b th1 th2) := by
  unfold osDistinguishes; infer_instance

/-- A call event: an invocation of `get` by some thread, at some
abstract time during the thread's life.  The result depends only on
the caller: every primitive reads per-thread state that is stable for
the life of the thread. -/
structure CallEvent where
  caller : Nat
  time : Nat
deriving DecidableEq, Repr

/-- The value a call event returns: `get` applied to the caller. -/
def callResult (w : Nat) (env : OsEnv w) (b : Backend) (c : CallEvent) :
    Option Nat :=
  get w env b c.caller

/-- The crate's exported items, read off `src/lib.rs`: the only `pub`
item is `fn get` (line 45).  `get_internal` and the test function are
private to the crate. -/
def publicApi : List String := ["get"]

/-- A concrete 64-bit environment used to witness the theorems below. -/
def envEx : OsEnv 64 where
  pthread_self := fun th => th % 2 ^ 32
  getCurrentThreadId := fun th => th % 2 ^ 32
  getCurrentThreadId_lt := fun th => Nat.mod_lt th (by norm_num)
  getpid := fun th => some (th % 2 ^ 32)
  getpid_lt := fun th v h => by
    have hlt : th % 2 ^ 32 < 2 ^ 32 := Nat.mod_lt th (by norm_num)
    have hv : v = th % 2 ^ 32 := by
      simpa using h.symm
    subst hv
    exact lt_trans hlt (by norm_num)
  threadIdAsU64 := fun th => th % 2 ^ 32 + 1
  threadIdAsU64_pos := fun th => Nat.succ_pos _
  threadIdAsU64_lt := fun th => by
    have hlt : th % 2 ^ 32 < 2 ^ 32 := Nat.mod_lt th (by norm_num)
    show th % 2 ^ 32 + 1 < 2 ^ 64
    omega

/-- The Redox target as Rust defines it: `target_os = "redox"` and
`target_family = "unix"` (true of `x86_64-unknown-redox`), 64-bit. -/
def redoxTarget : Target :=
  { os := "redox", unixFamily := true, windowsFamily := false,
    ptrWidth := 64 }

/-- A 64-bit Linux target: unix family, `target_os = "linux"`. -/
def linuxTarget : Target :=
  { os := "linux", unixFamily := true, windowsFamily := false,
    ptrWidth := 64 }

/-- A target outside all four `cfg` conditions (e.g. a bare-metal wasm
target): not unix family, not windows family, neither special os tag. -/
def unknownTarget : Target :=
  { os := "unknown-arch", unixFamily := false, windowsFamily := false,
    ptrWidth := 32 }

/-- `some v1 ≠ some v2` survives the `as usize` truncation when both
values already fit in the machine word. -/
theorem asUsize_some_ne {w v1 v2 : Nat} (hne : Option.some v1 ≠ some v2)
    (h1 : v1 < 2 ^ w) (h2 : v2 < 2 ^ w) :
    Option.some (asUsize w v1) ≠ some (asUsize w v2) := by
  unfold asUsize
  rw [Nat.mod_eq_of_lt h1, Nat.mod_eq_of_lt h2]
  exact hne

/-- Claim C1: the value returned by `get` is a pure function of the
calling thread: any two calls by the same thread return equal values,
whatever their times. -/
theorem get_deterministic_per_thread (w : Nat) (env : OsEnv w)
    (b : Backend) (c1 c2 : CallEvent) (h : c1.caller = c2.caller) :
    callResult w env b c1 = callResult w env b c2 := by
  unfold callResult
  rw [h]

theorem get_deterministic_per_thread_witness :
    callResult 64 envEx Backend.unix { caller := 5, time := 0 } =
      callResult 64 envEx Backend.unix { caller := 5, time := 1 } :=
  get_deterministic_per_thread 64 envEx Backend.unix
    { caller := 5, time := 0 } { caller := 5, time := 1 } rfl

/-- Claim C2: two distinct concurrently live threads obtain distinct
identifiers from `get`, given the OS guarantee that the selected
backend's primitive distinguishes them (with word-sized values). -/
theorem get_distinct_live_threads (w : Nat) (env : OsEnv w)
    (b : Backend) (th1 th2 : Nat)
    (hos : osDistinguishes w env b th1 th2) :
    get w env b th1 ≠ get w env b th2 := by
  obtain ⟨hne, h1, h2⟩ := hos
  cases b with
  | redox => exact fun hg => hne hg
  | switch =>
      simp only [rawValue, valueFits] at hne h1 h2
      exact asUsize_some_ne hne h1 h2
  | unix =>
      simp only [rawValue, valueFits] at hne h1 h2
      exact asUsize_some_ne hne h1 h2
  | windows =>
      simp only [rawValue, valueFits] at hne h1 h2
      exact asUsize_some_ne hne h1 h2

theorem get_distinct_live_threads_witness :
    get 64 envEx Backend.windows 0 ≠ get 64 envEx Backend.windows 1 :=
  get_distinct_live_threads 64 envEx Backend.windows 0 1 (by decide)

/-- Claim C3 counterexample: backend selection is not mutually
exclusive and has no precedence.  On the Redox target — which is in the
unix target family — both the `#[cfg(unix)]` and the
`#[cfg(target_os = "redox")]` definitions of `get_internal` are
enabled, and the build fails with a duplicate definition. -/
theorem backend_selection_not_exclusive :
    compiledBackends redoxTarget = [Backend.unix, Backend.redox] ∧
    build redoxTarget = BuildResult.duplicateDefinition := by
  decide

/-- Claim C3 (amended): the four `cfg` conditions are evaluated
independently, with no precedence of the Switch and Redox branches over
the unix branch; the build selects a backend precisely when exactly one
of the four conditions holds on the target. -/
theorem backend_selection_exactly_one (t : Target) :
    (∃ b, build t = BuildResult.ok b) ↔
      (if cfgSwitch t then 1 else 0) + (if cfgUnix t then 1 else 0) +
        (if cfgWindows t then 1 else 0) +
        (if cfgRedox t then 1 else 0) = 1 := by
  unfold build compiledBackends
  cases hs : cfgSwitch t <;> cases hu : cfgUnix t <;>
    cases hw : cfgWindows t <;> cases hr : cfgRedox t <;> simp

theorem backend_selection_exactly_one_witness :
    ∃ b, build linuxTarget = BuildResult.ok b :=
  (backend_selection_exactly_one linuxTarget).mpr (by decide)

/-- Claim C4: cross-platform parity.  `get` returns exactly the
platform primitive's value converted to a machine word: on POSIX, the
`pthread_self` handle truncated to `usize`; on Windows (word width at
least 32), the `GetCurrentThreadId` value itself; on Redox, the pid
returned by a successful `getpid`. -/
theorem get_platform_parity (w : Nat) (env : OsEnv w) (th : Nat)
    (hw : 32 ≤ w) :
    get w env Backend.unix th = some (asUsize w (env.pthread_self th)) ∧
    get w env Backend.windows th = some (env.getCurrentThreadId th) ∧
    (∀ v, env.getpid th = some v →
      get w env Backend.redox th = some v) := by
  refine ⟨rfl, ?_, fun v hv => hv⟩
  show some (asUsize w (env.getCurrentThreadId th)) = _
  have h32 : (2 : Nat) ^ 32 ≤ 2 ^ w := Nat.pow_le_pow_right (by norm_num) hw
  rw [asUsize,
    Nat.mod_eq_of_lt (lt_of_lt_of_le (env.getCurrentThreadId_lt th) h32)]

theorem get_platform_parity_witness :
    get 64 envEx Backend.unix 0 = some (asUsize 64 (envEx.pthread_self 0)) ∧
    get 64 envEx Backend.windows 0 = some (envEx.getCurrentThreadId 0) ∧
    get 64 envEx Backend.redox 0 = some 0 := by
  have h := get_platform_parity 64 envEx 0 (by norm_num)
  exact ⟨h.1, h.2.1, h.2.2 0 rfl⟩

/-- Claim C5: `get` exposes no error.  Every backend other than Redox
always returns a value; the Redox backend returns exactly what `getpid`
produced, so the only non-value outcome is the panic of `.unwrap()` on
a failed syscall — never an error value handed to the caller. -/
theorem get_infallible (w : Nat) (env : OsEnv w) (th : Nat) :
    (∀ b, b ≠ Backend.redox → (get w env b th).isSome = true) ∧
    get w env Backend.redox th = env.getpid th := by
  refine ⟨?_, rfl⟩
  intro b hb
  cases b with
  | redox => exact absurd rfl hb
  | switch => rfl
  | unix => rfl
  | windows => rfl

theorem get_infallible_witness :
    (get 64 envEx Backend.unix 0).isSome = true ∧
    get 64 envEx Backend.redox 0 = envEx.getpid 0 := by
  have h := get_infallible 64 envEx 0
  exact ⟨h.1 Backend.unix (by decide), h.2⟩

/-- Claim C6: on the Windows backend the 32-bit thread id is
zero-extended: whenever the word width is at least 32, `get` returns
the `GetCurrentThreadId` value unchanged, and every returned value is
strictly below `2 ^ 32`. -/
theorem windows_zero_extended (w : Nat) (env : OsEnv w) (th : Nat)
    (hw : 32 ≤ w) :
    get w env Backend.windows th = some (env.getCurrentThreadId th) ∧
    ∀ r, get w env Backend.windows th = some r → r < 2 ^ 32 := by
  have hlt := env.getCurrentThreadId_lt th
  have h32 : (2 : Nat) ^ 32 ≤ 2 ^ w := Nat.pow_le_pow_right (by norm_num) hw
  have h1 : get w env Backend.windows th =
      some (env.getCurrentThreadId th) := by
    show some (asUsize w (env.getCurrentThreadId th)) = _
    rw [asUsize, Nat.mod_eq_of_lt (lt_of_lt_of_le hlt h32)]
  refine ⟨h1, fun r hr => ?_⟩
  rw [h1] at hr
  injection hr with h2
  exact h2 ▸ hlt

theorem windows_zero_extended_witness :
    get 64 envEx Backend.windows 3 = some (envEx.getCurrentThreadId 3) ∧
    envEx.getCurrentThreadId 3 < 2 ^ 32 := by
  have h := windows_zero_extended 64 envEx 3 (by norm_num)
  exact ⟨h.1, h.2 (envEx.getCurrentThreadId 3) h.1⟩

/-- Claim C7: on the Switch backend the runtime's 64-bit thread
identity is truncated to the machine word (`mod 2 ^ w`), and on a
64-bit target this truncation is lossless: `get` returns the identity
itself. -/
theorem switch_truncates (w : Nat) (env : OsEnv w) (th : Nat) :
    get w env Backend.switch th = some (env.threadIdAsU64 th % 2 ^ w) ∧
    (w = 64 → get w env Backend.switch th =
      some (env.threadIdAsU64 th)) := by
  refine ⟨rfl, fun h64 => ?_⟩
  show some (asUsize w (env.threadIdAsU64 th)) = _
  subst h64
  rw [asUsize, Nat.mod_eq_of_lt (env.threadIdAsU64_lt th)]

theorem switch_truncates_witness :
    get 64 envEx Backend.switch 5 =
      some (envEx.threadIdAsU64 5 % 2 ^ 64) ∧
    get 64 envEx Backend.switch 5 = some (envEx.threadIdAsU64 5) := by
  have h := switch_truncates 64 envEx 5
  exact ⟨h.1, h.2 rfl⟩

/-- Claim C8 counterexample: on a target matching none of the four
`cfg` conditions the build does fail, but the diagnostic is rustc's own
unresolved-name error for `get_internal`; the crate has no
`compile_error!`, and the message does not mention the target. -/
theorem unsupported_target_diagnostic_silent :
    buildDiagnostic unknownTarget = some missingGetInternalMsg ∧
    containsSub unknownTarget.os.toList missingGetInternalMsg.toList =
      false := by
  decide

/-- Claim C8 (amended): building for a target that matches none of the
four backends fails at build time, but only with the compiler's
unresolved-name error for `get_internal` — a fixed message, the same
for every unsupported target, that does not name the target. -/
theorem unsupported_target_build_error (t : Target)
    (h : unsupported t) :
    build t = BuildResult.missingGetInternal ∧
    buildDiagnostic t = some missingGetInternalMsg := by
  obtain ⟨h1, h2, h3, h4⟩ := h
  unfold buildDiagnostic build compiledBackends
  rw [h1, h2, h3, h4]
  simp

theorem unsupported_target_build_error_witness :
    build unknownTarget = BuildResult.missingGetInternal ∧
    buildDiagnostic unknownTarget = some missingGetInternalMsg :=
  unsupported_target_build_error unknownTarget (by decide)

/-- Claim C9 counterexample: the crate's single exported operation is
named `get`, not `get_thread_id`: no exported item bears the latter
name. -/
theorem public_api_name_not_get_thread_id :
    "get_thread_id" ∉ publicApi ∧ publicApi = ["get"] := by
  exact ⟨by decide, rfl⟩

/-- Claim C9 (amended): the public API surface is exactly one exported
operation, named `get` (invoked as `thread_id::get`), returning an
unsigned machine-word integer: every value it returns is below
`2 ^ w`.  No other symbols are exported. -/
theorem public_api_single_get (w : Nat) (env : OsEnv w) :
    publicApi = ["get"] ∧
    ∀ b th r, get w env b th = some r → r < 2 ^ w := by
  refine ⟨rfl, ?_⟩
  intro b th r hr
  cases b with
  | redox => exact env.getpid_lt th r hr
  | switch =>
      injection hr with h
      exact h ▸ Nat.mod_lt _ (pow_pos (by norm_num) w)
  | unix =>
      injection hr with h
      exact h ▸ Nat.mod_lt _ (pow_pos (by norm_num) w)
  | windows =>
      injection hr with h
      exact h ▸ Nat.mod_lt _ (pow_pos (by norm_num) w)

theorem public_api_single_get_witness :
    publicApi = ["get"] ∧ (0 : Nat) < 2 ^ 64 := by
  have h := public_api_single_get 64 envEx
  exact ⟨h.1, h.2 Backend.unix 0 0 rfl⟩

/-- Claim C10: on the Switch backend with a 64-bit word, the returned
identifier is never zero: the runtime id is a `NonZeroU64` and the
lossless truncation preserves its nonzeroness. -/
theorem switch_id_nonzero (env : OsEnv 64) (th : Nat) :
    ∀ r, get 64 env Backend.switch th = some r → 0 < r := by
  intro r hr
  have h : get 64 env Backend.switch th =
      some (env.threadIdAsU64 th) := by
    show some (asUsize 64 (env.threadIdAsU64 th)) = _
    rw [asUsize, Nat.mod_eq_of_lt (env.threadIdAsU64_lt th)]
  rw [h] at hr
  injection hr with h2
  exact h2 ▸ env.threadIdAsU64_pos th

theorem switch_id_nonzero_witness :
    0 < 1 ∧ get 64 envEx Backend.switch 0 = some 1 :=
  ⟨switch_id_nonzero envEx 0 1 rfl, rfl⟩

end ThreadId
